import Mathlib

/-!
Verification of the openai_orchestration repository against its
natural-language specification.

The development shallowly embeds the Python source in Lean 4:

* Pydantic models become Lean structures together with an explicit
  `mk...` constructor returning `Option`, which is `none` exactly when a
  field constraint or a `@validator` of the source model rejects the
  input.
* Machine floats used for score arithmetic are idealised as `ℚ` when the
  source only performs field operations, and as `ℝ` when the source
  takes square roots (`numpy.linalg.norm`, `math.sqrt`).
* Python strings are modelled as `List Char`; `str.split`, `str.strip`,
  `str.lower` and friends are re-implemented on `List Char`.
* Token estimation `int(word_count * 1.3)` is modelled exactly as
  `13 * wordCount / 10` in `ℕ` (floor division).
* Stateful repository methods become pure functions from an explicit
  state value (plus the outcome of each external call, supplied as a
  parameter) to a result/ new state pair.
-/

namespace OpenaiOrchestration

/-! ## Pydantic vector models (`app/models/vector.py`) -/

/-- Embedding of `SimilarityResult` (`app/models/vector.py`).  Metadata is
an association list of string keys and values; the float score is
idealised as `ℚ`. -/
structure SimilarityResultM where
  documentId : String
  content : String
  similarityScore : ℚ
  metadata : List (String × String)
  distance : Option ℚ
deriving DecidableEq, Repr

/-- Constructor for `SimilarityResult`: the `similarity_score` field carries
`ge=0.0, le=1.0` plus `validate_similarity_score`, both rejecting scores
outside `[0, 1]`. -/
def mkSimilarityResult (documentId content : String) (similarityScore : ℚ)
    (metadata : List (String × String)) (distance : Option ℚ) :
    Option SimilarityResultM :=
  if similarityScore < 0 ∨ 1 < similarityScore then none
  else some ⟨documentId, content, similarityScore, metadata, distance⟩

/-- Embedding of `VectorSearchResponse` (`app/models/vector.py`).  Counts are
Python ints, modelled as `ℤ`. -/
structure VectorSearchResponseM where
  query : String
  results : List SimilarityResultM
  totalResults : ℤ
  searchTimeMs : ℤ
  usedFallback : Bool
deriving DecidableEq, Repr

/-- Constructor for `VectorSearchResponse`: `total_results` carries `ge=0`
and the validator `validate_total_results`, rejecting any value different
from `len(results)`; `search_time_ms` carries `ge=0`. -/
def mkVectorSearchResponse (query : String) (results : List SimilarityResultM)
    (totalResults searchTimeMs : ℤ) (usedFallback : Bool) :
    Option VectorSearchResponseM :=
  if totalResults < 0 then none
  else if totalResults ≠ results.length then none
  else if searchTimeMs < 0 then none
  else some ⟨query, results, totalResults, searchTimeMs, usedFallback⟩

/-- Embedding of `DocumentResponse` (`app/models/vector.py`).  Timestamps are
modelled as natural numbers. -/
structure DocumentResponseM where
  id : String
  content : String
  metadata : List (String × String)
  createdAt : ℕ
  updatedAt : Option ℕ
deriving DecidableEq, Repr

/-- One entry of `BulkDocumentResponse.failed_documents`: the source appends
a dict with the failing index, the original document and the error text. -/
structure FailedDocumentM where
  index : ℕ
  error : String
deriving DecidableEq, Repr

/-- Embedding of `BulkDocumentResponse` (`app/models/vector.py`). -/
structure BulkDocumentResponseM where
  createdDocuments : List DocumentResponseM
  failedDocuments : List FailedDocumentM
  totalRequested : ℤ
  totalCreated : ℤ
  totalFailed : ℤ
  processingTimeMs : ℤ
deriving DecidableEq, Repr

/-- Constructor for `BulkDocumentResponse`: the four count fields carry
`ge=0`; `validate_total_created` rejects `total_created ≠
len(created_documents)` and `validate_total_failed` rejects
`total_failed ≠ len(failed_documents)`. -/
def mkBulkDocumentResponse (createdDocuments : List DocumentResponseM)
    (failedDocuments : List FailedDocumentM)
    (totalRequested totalCreated totalFailed processingTimeMs : ℤ) :
    Option BulkDocumentResponseM :=
  if totalRequested < 0 ∨ totalCreated < 0 ∨ totalFailed < 0 ∨ processingTimeMs < 0 then none
  else if totalCreated ≠ createdDocuments.length then none
  else if totalFailed ≠ failedDocuments.length then none
  else some ⟨createdDocuments, failedDocuments, totalRequested, totalCreated,
    totalFailed, processingTimeMs⟩

/-! ## Claim C1 -/

/-- C1: for every successfully constructed `BulkDocumentResponse`,
`total_created` equals the length of `created_documents` and `total_failed`
equals the length of `failed_documents`, and construction with mismatched
counts fails validation; identically, a constructed `VectorSearchResponse`
has `total_results` equal to the length of `results`, and a mismatched count
fails validation. -/
theorem count_invariants_hold
    (query : String) (results : List SimilarityResultM)
    (totalResults searchTimeMs : ℤ) (usedFallback : Bool)
    (createdDocuments : List DocumentResponseM)
    (failedDocuments : List FailedDocumentM)
    (totalRequested totalCreated totalFailed processingTimeMs : ℤ) :
    (∀ r, mkVectorSearchResponse query results totalResults searchTimeMs usedFallback = some r →
      r.totalResults = r.results.length)
    ∧ (totalResults ≠ results.length →
      mkVectorSearchResponse query results totalResults searchTimeMs usedFallback = none)
    ∧ (∀ b, mkBulkDocumentResponse createdDocuments failedDocuments totalRequested
        totalCreated totalFailed processingTimeMs = some b →
      b.totalCreated = b.createdDocuments.length ∧ b.totalFailed = b.failedDocuments.length)
    ∧ (totalCreated ≠ createdDocuments.length ∨ totalFailed ≠ failedDocuments.length →
      mkBulkDocumentResponse createdDocuments failedDocuments totalRequested
        totalCreated totalFailed processingTimeMs = none) := by
  refine ⟨?_, ?_, ?_, ?_⟩
  · intro r hr
    unfold mkVectorSearchResponse at hr
    split at hr
    · exact absurd hr (by simp)
    · split at hr
      · exact absurd hr (by simp)
      · split at hr
        · exact absurd hr (by simp)
        · cases hr
          simpa using (by assumption : ¬ totalResults ≠ results.length)
  · intro hne
    simp [mkVectorSearchResponse, hne]
  · intro b hb
    unfold mkBulkDocumentResponse at hb
    split at hb
    · exact absurd hb (by simp)
    · split at hb
      · exact absurd hb (by simp)
      · split at hb
        · exact absurd hb (by simp)
        · cases hb
          constructor
          · simpa using (by assumption : ¬ totalCreated ≠ (createdDocuments.length : ℤ))
          · simpa using (by assumption : ¬ totalFailed ≠ (failedDocuments.length : ℤ))
  · intro hne
    rcases hne with h | h
    · simp [mkBulkDocumentResponse, h]
    · by_cases hc : totalCreated = (createdDocuments.length : ℤ)
      · simp [mkBulkDocumentResponse, h, hc]
      · simp [mkBulkDocumentResponse, hc]

/-- Witness for C1 at concrete inputs: a matched construction succeeds and
satisfies the count invariant, a mismatched one is rejected. -/
theorem count_invariants_hold_witness :
    (mkVectorSearchResponse "q" [] 0 0 false = some ⟨"q", [], 0, 0, false⟩
      ∧ ((2 : ℤ) ≠ ([] : List SimilarityResultM).length
          → mkVectorSearchResponse "q" [] 2 0 false = none)
      ∧ mkVectorSearchResponse "q" [] 2 0 false = none)
    ∧ (((1 : ℤ) ≠ ([] : List DocumentResponseM).length ∨ (0 : ℤ) ≠ ([] : List FailedDocumentM).length)
        → mkBulkDocumentResponse [] [] 0 1 0 0 = none)
    ∧ mkBulkDocumentResponse [] [] 0 1 0 0 = none := by
  refine ⟨⟨by decide, ?_, ?_⟩, ?_, ?_⟩
  · exact (count_invariants_hold "q" [] 2 0 false [] [] 0 1 0 0).2.1
  · exact (count_invariants_hold "q" [] 2 0 false [] [] 0 1 0 0).2.1 (by decide)
  · exact (count_invariants_hold "q" [] 2 0 false [] [] 0 1 0 0).2.2.2
  · exact (count_invariants_hold "q" [] 2 0 false [] [] 0 1 0 0).2.2.2 (Or.inl (by decide))

/-! ## Python string helpers

Python `str` values are modelled as `List Char`; the helpers below embed
the string methods the repository uses (`strip`, `lower`, `startswith`,
`rstrip`, `split`, `join`, substring test). -/

/-- Python `str.strip()` (default whitespace). -/
def pyStrip (l : List Char) : List Char :=
  ((l.dropWhile Char.isWhitespace).reverse.dropWhile Char.isWhitespace).reverse

/-- Python `str.lower()` (ASCII case folding, which is all the repository
feeds it). -/
def pyLower (l : List Char) : List Char := l.map Char.toLower

/-- Python `str.split()` with no argument: split on whitespace runs,
discarding empty fragments. -/
def pySplit : List Char → List (List Char)
  | [] => []
  | c :: rest =>
    if c.isWhitespace then pySplit rest
    else
      match pySplit rest with
      | [] => [[c]]
      | w :: ws =>
        match rest with
        | [] => [[c]]
        | d :: _ => if d.isWhitespace then [c] :: w :: ws else (c :: w) :: ws

/-- Python `len(s.split())`: the number of maximal whitespace-free runs. -/
def pyWordCount (l : List Char) : ℕ := (pySplit l).length

/-- Python `" ".join(parts)`. -/
def pyJoinSpace : List (List Char) → List Char
  | [] => []
  | [w] => w
  | w :: rest => w ++ ' ' :: pyJoinSpace rest

/-! ## Cosine similarity functions

The repository contains two distinct cosine-similarity implementations:
`VectorRepository._calculate_cosine_similarity`
(`app/repositories/vector_repository.py`), which remaps the cosine
affinely into `[0, 1]`, and `ConversationalRAGService._cosine_similarity`
(`app/services/conversational_rag.py`), which returns the raw cosine.
Vectors of floats are idealised as `List ℝ`. -/

/-- `sum(a * b for a, b in zip(vec1, vec2))` (and `numpy.dot` on
equal-length vectors). -/
noncomputable def listDot (v1 v2 : List ℝ) : ℝ :=
  (List.zipWith (fun a b => a * b) v1 v2).sum

/-- `sum(a * a for a in vec)`: the squared Euclidean norm. -/
noncomputable def listSumSq (v : List ℝ) : ℝ :=
  (v.map (fun a => a * a)).sum

/-- `numpy.linalg.norm(vec)` and `math.sqrt(sum(a * a for a in vec))`. -/
noncomputable def listNorm (v : List ℝ) : ℝ :=
  Real.sqrt (listSumSq v)

/-- Embedding of `VectorRepository._calculate_cosine_similarity`.  On
mismatched dimensions `numpy.dot` raises and the handler returns `0.0`;
a zero norm returns `0.0`; otherwise the cosine is remapped by
`max(0.0, min(1.0, (similarity + 1) / 2))`. -/
noncomputable def calculateCosineSimilarity (vec1 vec2 : List ℝ) : ℝ :=
  if vec1.length ≠ vec2.length then 0
  else if listNorm vec1 = 0 ∨ listNorm vec2 = 0 then 0
  else max 0 (min 1 ((listDot vec1 vec2 / (listNorm vec1 * listNorm vec2) + 1) / 2))

/-- Embedding of `ConversationalRAGService._cosine_similarity`: the raw
cosine `dot / (|a| * |b|)`, with `0` when either magnitude is zero and no
clamping of the result. -/
noncomputable def cosineSimilarityConv (vec1 vec2 : List ℝ) : ℝ :=
  if listNorm vec1 = 0 ∨ listNorm vec2 = 0 then 0
  else listDot vec1 vec2 / (listNorm vec1 * listNorm vec2)

/-! ## Claim C2 -/

/-- C2: the Vector Repository relational-fallback cosine similarity always
lies in `[0, 1]`, returns exactly `0` when either input has zero magnitude,
and on compatible nonzero vectors equals
`clamp((dot / (|a| * |b|) + 1) / 2, 0, 1)`. -/
theorem calculateCosineSimilarity_spec (v1 v2 : List ℝ) :
    (0 ≤ calculateCosineSimilarity v1 v2 ∧ calculateCosineSimilarity v1 v2 ≤ 1)
    ∧ (listNorm v1 = 0 ∨ listNorm v2 = 0 → calculateCosineSimilarity v1 v2 = 0)
    ∧ (v1.length = v2.length → listNorm v1 ≠ 0 → listNorm v2 ≠ 0 →
      calculateCosineSimilarity v1 v2 =
        max 0 (min 1 ((listDot v1 v2 / (listNorm v1 * listNorm v2) + 1) / 2))) := by
  refine ⟨?_, ?_, ?_⟩
  · unfold calculateCosineSimilarity
    split
    · norm_num
    · split
      · norm_num
      · constructor
        · exact le_max_left 0 _
        · exact max_le (by norm_num) (min_le_left 1 _)
  · intro h
    simp [calculateCosineSimilarity, h]
  · intro hlen h1 h2
    unfold calculateCosineSimilarity
    rw [if_neg (by simpa using hlen), if_neg (by simp [h1, h2])]

/-- Witness for C2 at `v1 = v2 = [1]` (both hypothesis-bearing conjuncts
are also exercised, the zero case at `v1 = [0]`). -/
theorem calculateCosineSimilarity_spec_witness :
    (listNorm [(0 : ℝ)] = 0 ∨ listNorm [(1 : ℝ)] = 0)
    ∧ calculateCosineSimilarity [(0 : ℝ)] [(1 : ℝ)] = 0
    ∧ ([(1 : ℝ)].length = [(1 : ℝ)].length ∧ listNorm [(1 : ℝ)] ≠ 0)
    ∧ calculateCosineSimilarity [(1 : ℝ)] [(1 : ℝ)] =
        max 0 (min 1 ((listDot [(1 : ℝ)] [(1 : ℝ)] /
          (listNorm [(1 : ℝ)] * listNorm [(1 : ℝ)]) + 1) / 2)) := by
  have hz : listNorm [(0 : ℝ)] = 0 := by
    simp [listNorm, listSumSq]
  have ho : listNorm [(1 : ℝ)] = 1 := by
    simp [listNorm, listSumSq]
  refine ⟨Or.inl hz, ?_, ⟨rfl, by rw [ho]; norm_num⟩, ?_⟩
  · exact (calculateCosineSimilarity_spec [(0 : ℝ)] [(1 : ℝ)]).2.1 (Or.inl hz)
  · exact (calculateCosineSimilarity_spec [(1 : ℝ)] [(1 : ℝ)]).2.2 rfl
      (by rw [ho]; norm_num) (by rw [ho]; norm_num)

/-! ## Cauchy-Schwarz for list dot products -/

theorem listSumSq_nonneg (v : List ℝ) : 0 ≤ listSumSq v := by
  refine List.sum_nonneg ?_
  intro x hx
  rcases List.mem_map.1 hx with ⟨a, _, rfl⟩
  exact mul_self_nonneg a

theorem listDot_eq_sum_range (v1 v2 : List ℝ) :
    listDot v1 v2 =
      ∑ i ∈ Finset.range (min v1.length v2.length), v1.getD i 0 * v2.getD i 0 := by
  induction v1 generalizing v2 with
  | nil => simp [listDot]
  | cons a l1 ih =>
    cases v2 with
    | nil => simp [listDot]
    | cons b l2 =>
      have hrec := ih l2
      simp only [listDot] at hrec ⊢
      rw [List.zipWith_cons_cons, List.sum_cons, hrec]
      rw [List.length_cons, List.length_cons, Nat.succ_min_succ, Finset.sum_range_succ']
      simp [add_comm]

theorem listSumSq_eq_sum_range (v : List ℝ) :
    listSumSq v = ∑ i ∈ Finset.range v.length, v.getD i 0 * v.getD i 0 := by
  induction v with
  | nil => simp [listSumSq]
  | cons a l ih =>
    simp only [listSumSq] at ih ⊢
    rw [List.map_cons, List.sum_cons, ih, List.length_cons, Finset.sum_range_succ']
    simp [add_comm]

theorem listSumSq_eq_sum_range_pow (v : List ℝ) :
    listSumSq v = ∑ i ∈ Finset.range v.length, v.getD i 0 ^ 2 := by
  rw [listSumSq_eq_sum_range]
  refine Finset.sum_congr rfl ?_
  intro i _
  rw [pow_two]

theorem listDot_le_mul_norm (v1 v2 : List ℝ) :
    listDot v1 v2 ≤ listNorm v1 * listNorm v2 := by
  rw [listDot_eq_sum_range]
  have h1 : (∑ i ∈ Finset.range (min v1.length v2.length), v1.getD i 0 ^ 2) ≤ listSumSq v1 := by
    rw [listSumSq_eq_sum_range_pow]
    refine Finset.sum_le_sum_of_subset_of_nonneg
      (Finset.range_subset.2 (min_le_left _ _)) ?_
    intro i _ _
    positivity
  have h2 : (∑ i ∈ Finset.range (min v1.length v2.length), v2.getD i 0 ^ 2) ≤ listSumSq v2 := by
    rw [listSumSq_eq_sum_range_pow]
    refine Finset.sum_le_sum_of_subset_of_nonneg
      (Finset.range_subset.2 (min_le_right _ _)) ?_
    intro i _ _
    positivity
  calc ∑ i ∈ Finset.range (min v1.length v2.length), v1.getD i 0 * v2.getD i 0
      ≤ Real.sqrt (∑ i ∈ Finset.range (min v1.length v2.length), v1.getD i 0 ^ 2) *
        Real.sqrt (∑ i ∈ Finset.range (min v1.length v2.length), v2.getD i 0 ^ 2) :=
        Real.sum_mul_le_sqrt_mul_sqrt _ _ _
    _ ≤ listNorm v1 * listNorm v2 :=
        mul_le_mul (Real.sqrt_le_sqrt h1) (Real.sqrt_le_sqrt h2)
          (Real.sqrt_nonneg _) (Real.sqrt_nonneg _)

theorem listSumSq_map_neg (v : List ℝ) : listSumSq (v.map Neg.neg) = listSumSq v := by
  unfold listSumSq
  induction v with
  | nil => simp
  | cons a l ih =>
    simp only [List.map_cons, List.sum_cons, ih]
    ring_nf

theorem neg_listDot_le_mul_norm (v1 v2 : List ℝ) :
    -listDot v1 v2 ≤ listNorm v1 * listNorm v2 := by
  have key : -listDot v1 v2 = listDot (v1.map Neg.neg) v2 := by
    unfold listDot
    induction v1 generalizing v2 with
    | nil => simp
    | cons a l1 ih =>
      cases v2 with
      | nil => simp
      | cons b l2 =>
        simp only [List.map_cons, List.zipWith_cons_cons, List.sum_cons, neg_add, ih, neg_mul]
  have hn : listNorm (v1.map Neg.neg) = listNorm v1 := by
    unfold listNorm
    rw [listSumSq_map_neg]
  calc -listDot v1 v2 = listDot (v1.map Neg.neg) v2 := key
    _ ≤ listNorm (v1.map Neg.neg) * listNorm v2 := listDot_le_mul_norm _ _
    _ = listNorm v1 * listNorm v2 := by rw [hn]

/-! ## RAG relevance scoring (`app/services/rag_service.py`) -/

/-- Embedding of the `RetrievedDocument` dataclass
(`app/services/rag_service.py`).  The content string is a `List Char`;
metadata values are the strings `str(v)` the scorer works with. -/
structure RetrievedDocumentM where
  content : List Char
  similarityScore : ℚ
  metadata : List (List Char × List Char)
  source : String
  documentId : String
deriving DecidableEq, Repr

/-- Embedding of `RAGService._calculate_relevance_score`: starts from the
similarity score, multiplies by `0.8` for contents under 50 characters and
by `0.9` for contents over 5000 characters, boosts by
`1 + 0.1 * (number of distinct query terms occurring in the joined
lower-cased metadata values)`, and clamps the result to `[0, 1]`. -/
def calculateRelevanceScore (document : RetrievedDocumentM) (query : List Char) : ℚ :=
  let base := document.similarityScore
  let lengthAdjusted :=
    if document.content.length < 50 then base * (8 / 10)
    else if 5000 < document.content.length then base * (9 / 10)
    else base
  let queryTerms := (pySplit (pyLower query)).dedup
  let metadataText := pyJoinSpace (document.metadata.map (fun p => pyLower p.2))
  let metadataMatches := (queryTerms.filter (fun t => decide (t <:+: metadataText))).length
  let boosted :=
    if 0 < metadataMatches then lengthAdjusted * (1 + (1 / 10) * metadataMatches)
    else lengthAdjusted
  max 0 (min 1 boosted)

/-! ## Claim C3 -/

/-- C3 counterexample: the Conversational-RAG cosine similarity evaluates to
`-1` on the vectors `[1]` and `[-1]`, which is not in `[0, 1]` — the claim
that every similarity function returns values in `[0, 1]` is false. -/
theorem cosineSimilarityConv_not_clamped :
    cosineSimilarityConv [(1 : ℝ)] [(-1 : ℝ)] = -1
    ∧ ¬ (0 ≤ cosineSimilarityConv [(1 : ℝ)] [(-1 : ℝ)]) := by
  have h1 : listNorm [(1 : ℝ)] = 1 := by simp [listNorm, listSumSq]
  have h2 : listNorm [(-1 : ℝ)] = 1 := by
    simp [listNorm, listSumSq]
  have hval : cosineSimilarityConv [(1 : ℝ)] [(-1 : ℝ)] = -1 := by
    rw [cosineSimilarityConv, if_neg (by rw [h1, h2]; norm_num)]
    rw [h1, h2]
    simp [listDot]
  exact ⟨hval, by rw [hval]; norm_num⟩

/-- C3 amended: scores produced through the `SimilarityResult` validator and
by `RAGService._calculate_relevance_score` do lie in `[0, 1]`, while the
Conversational-RAG cosine similarity is only bounded by `[-1, 1]` (it is the
raw cosine, with no clamp or affine remap). -/
theorem similarity_scores_bounded (v1 v2 : List ℝ)
    (document : RetrievedDocumentM) (query : List Char)
    (documentId content : String) (score : ℚ)
    (metadata : List (String × String)) (distance : Option ℚ) :
    (-1 ≤ cosineSimilarityConv v1 v2 ∧ cosineSimilarityConv v1 v2 ≤ 1)
    ∧ (0 ≤ calculateRelevanceScore document query
        ∧ calculateRelevanceScore document query ≤ 1)
    ∧ (∀ r, mkSimilarityResult documentId content score metadata distance = some r →
        0 ≤ r.similarityScore ∧ r.similarityScore ≤ 1) := by
  refine ⟨?_, ?_, ?_⟩
  · unfold cosineSimilarityConv
    split
    · norm_num
    · rename_i hne
      push_neg at hne
      obtain ⟨hn1, hn2⟩ := hne
      have hp1 : 0 < listNorm v1 := lt_of_le_of_ne (Real.sqrt_nonneg _) (Ne.symm hn1)
      have hp2 : 0 < listNorm v2 := lt_of_le_of_ne (Real.sqrt_nonneg _) (Ne.symm hn2)
      have hpos : 0 < listNorm v1 * listNorm v2 := mul_pos hp1 hp2
      constructor
      · rw [le_div_iff₀ hpos]
        have := neg_listDot_le_mul_norm v1 v2
        linarith
      · rw [div_le_one hpos]
        exact listDot_le_mul_norm v1 v2
  · unfold calculateRelevanceScore
    constructor
    · exact le_max_left 0 _
    · exact max_le (by norm_num) (min_le_left 1 _)
  · intro r hr
    unfold mkSimilarityResult at hr
    split at hr
    · exact absurd hr (by simp)
    · cases hr
      rename_i hcond
      push_neg at hcond
      exact ⟨hcond.1, hcond.2⟩

/-- Witness for C3 amended, exercising the `mkSimilarityResult` hypothesis
at a concrete accepted score. -/
theorem similarity_scores_bounded_witness :
    mkSimilarityResult "d" "c" (1 / 2) [] none = some ⟨"d", "c", 1 / 2, [], none⟩
    ∧ (0 ≤ (⟨"d", "c", 1 / 2, [], none⟩ : SimilarityResultM).similarityScore
        ∧ (⟨"d", "c", 1 / 2, [], none⟩ : SimilarityResultM).similarityScore ≤ 1) := by
  have hsome : mkSimilarityResult "d" "c" (1 / 2) [] none = some ⟨"d", "c", 1 / 2, [], none⟩ := by
    rw [mkSimilarityResult, if_neg (by norm_num)]
  refine ⟨hsome, ?_⟩
  exact (similarity_scores_bounded [] [] ⟨[], 0, [], "", ""⟩ [] "d" "c" (1 / 2) [] none).2.2
    _ hsome

/-! ## Chat service retry logic (`app/services/chat_service.py`)

Embedding of `ChatService._call_openai_api_with_retry`.  The service is
constructed with `max_retries = 3` and `retry_delay = 1.0`.  Each loop
iteration calls `_call_openai_api`; the outcome of attempt `n` is supplied
as `outcome n`.  Rate-limit and connection errors sleep
`retry_delay * 2 ** attempt` and continue; authentication and other
provider API errors raise immediately without retrying; an unexpected
exception sleeps `retry_delay` and continues, except on the final attempt,
where it breaks out; a loop that exhausts all attempts raises an
`OpenAIAPIError` naming the attempt count and the last exception. -/

/-- Outcome of one `_call_openai_api` attempt, by exception class. -/
inductive ApiOutcome where
  | success (response : String)
  | rateLimit (msg : String)
  | connectionFailure (msg : String)
  | authFailure (msg : String)
  | apiFailure (msg : String)
  | unexpected (msg : String)
deriving DecidableEq, Repr

/-- Observable result of the retry wrapper: the returned response or raised
error, the backoff delays slept (in order), and the number of attempts
actually made. -/
structure RetryTrace where
  result : Except String String
  delays : List ℚ
  attemptsMade : ℕ
deriving Repr

/-- The message of the `OpenAIAPIError` raised after exhausting all
attempts: `"Failed to get response from OpenAI after {max_retries}
attempts"` plus `": {last_exception}"` when one was recorded. -/
def retryExhaustMsg (maxRetries : ℕ) (lastException : Option String) : String :=
  "Failed to get response from OpenAI after " ++ toString maxRetries ++ " attempts" ++
    (match lastException with
     | some m => ": " ++ m
     | none => "")

/-- The message of the `OpenAIAPIError` raised for non-retryable
authentication / API errors. -/
def nonRetryableMsg (msg : String) : String := "OpenAI API error: " ++ msg

/-- The retry loop body.  `remaining` counts loop iterations still allowed,
`attemptsDone` the attempts already made (so the current loop index is
`attemptsDone`); `delays` accumulates sleeps in reverse. -/
def retryGo (outcome : ℕ → ApiOutcome) (maxRetries : ℕ) (retryDelay : ℚ) :
    ℕ → ℕ → Option String → List ℚ → RetryTrace
  | 0, attemptsDone, lastException, delays =>
    ⟨.error (retryExhaustMsg maxRetries lastException), delays.reverse, attemptsDone⟩
  | remaining + 1, attemptsDone, _lastException, delays =>
    match outcome attemptsDone with
    | .success r => ⟨.ok r, delays.reverse, attemptsDone + 1⟩
    | .rateLimit m =>
      retryGo outcome maxRetries retryDelay remaining (attemptsDone + 1) (some m)
        (retryDelay * 2 ^ attemptsDone :: delays)
    | .connectionFailure m =>
      retryGo outcome maxRetries retryDelay remaining (attemptsDone + 1) (some m)
        (retryDelay * 2 ^ attemptsDone :: delays)
    | .authFailure m => ⟨.error (nonRetryableMsg m), delays.reverse, attemptsDone + 1⟩
    | .apiFailure m => ⟨.error (nonRetryableMsg m), delays.reverse, attemptsDone + 1⟩
    | .unexpected m =>
      if remaining = 0 then
        ⟨.error (retryExhaustMsg maxRetries (some m)), delays.reverse, attemptsDone + 1⟩
      else
        retryGo outcome maxRetries retryDelay remaining (attemptsDone + 1) (some m)
          (retryDelay :: delays)

/-- Embedding of `ChatService._call_openai_api_with_retry`. -/
def callOpenaiApiWithRetry (maxRetries : ℕ) (retryDelay : ℚ)
    (outcome : ℕ → ApiOutcome) : RetryTrace :=
  retryGo outcome maxRetries retryDelay maxRetries 0 none []

/-! ## Claim C4 -/

/-- C4: with the configured `max_retries = 3` and `retry_delay = 1.0`, a
call whose every attempt hits a rate limit is attempted exactly 3 times
with strictly increasing delays `[1, 2, 4]` and then raises a single error
naming the attempt count; an authentication failure on the first attempt is
raised after exactly one attempt with no delays. -/
theorem retry_rate_limit_and_auth (m : String) (outcome : ℕ → ApiOutcome) :
    ((callOpenaiApiWithRetry 3 1 (fun _ => .rateLimit m)).attemptsMade = 3
      ∧ (callOpenaiApiWithRetry 3 1 (fun _ => .rateLimit m)).delays = [1, 2, 4]
      ∧ (callOpenaiApiWithRetry 3 1 (fun _ => .rateLimit m)).delays.Chain' (· < ·)
      ∧ (callOpenaiApiWithRetry 3 1 (fun _ => .rateLimit m)).result =
          .error ("Failed to get response from OpenAI after 3 attempts: " ++ m))
    ∧ (∀ msg, outcome 0 = .authFailure msg →
        (callOpenaiApiWithRetry 3 1 outcome).attemptsMade = 1
        ∧ (callOpenaiApiWithRetry 3 1 outcome).delays = []
        ∧ (callOpenaiApiWithRetry 3 1 outcome).result =
            .error ("OpenAI API error: " ++ msg)) := by
  constructor
  · have hdelays : (callOpenaiApiWithRetry 3 1 (fun _ => .rateLimit m)).delays = [1, 2, 4] := by
      simp [callOpenaiApiWithRetry, retryGo]
      norm_num
    refine ⟨rfl, hdelays, ?_, rfl⟩
    rw [hdelays]
    refine List.Chain'.cons (by norm_num) (List.Chain'.cons (by norm_num) ?_)
    exact List.chain'_singleton 4
  · intro msg h
    rw [callOpenaiApiWithRetry, retryGo, h]
    exact ⟨rfl, rfl, rfl⟩

/-- Witness for C4 with a concrete always-failing authentication outcome. -/
theorem retry_rate_limit_and_auth_witness :
    (fun _ : ℕ => ApiOutcome.authFailure "bad key") 0 = .authFailure "bad key"
    ∧ (callOpenaiApiWithRetry 3 1 (fun _ => .authFailure "bad key")).attemptsMade = 1
    ∧ (callOpenaiApiWithRetry 3 1 (fun _ => .authFailure "bad key")).result =
        .error ("OpenAI API error: " ++ "bad key") := by
  have h := (retry_rate_limit_and_auth "x" (fun _ => .authFailure "bad key")).2 "bad key" rfl
  exact ⟨rfl, h.1, h.2.2⟩

/-! ## Conversation context service (`app/services/context_service.py`)

The context service only inspects a message through `token_count` and
`len(content.split())`, and a retrieved document through
`len(content.split())` and `similarity_score`; messages and documents are
therefore modelled by their word counts (document truncation rewrites the
content to its first `max_words` words plus an ellipsis glued to the last
word, so the truncated word count is `max 1 max_words`).  The float
estimate `int(word_count * 1.3)` is exact rational arithmetic
`13 * wordCount / 10`, and `int(max_tokens * weight)` is
`⌊max_tokens * weight⌋`. -/

/-- `int(word_count * 1.3)`: estimated tokens for a word count. -/
def estTokens (wordCount : ℕ) : ℕ := 13 * wordCount / 10

/-- A chat message as consumed by `ConversationContextService`
(word count of `content`, optional `token_count`, owning session). -/
structure ContextMessage where
  sessionId : String
  wordCount : ℕ
  tokenCount : Option ℕ
deriving DecidableEq, Repr

/-- A `RetrievedDocument` as consumed by `ConversationContextService`
(word count of `content`, similarity score, and the `truncated` metadata
marker added by `_truncate_document`). -/
structure ContextDocument where
  wordCount : ℕ
  similarityScore : ℚ
  truncated : Bool
deriving DecidableEq, Repr

/-- Per-message tokens in `_calculate_message_tokens` /
`_prioritize_messages`: the stored `token_count` when truthy (Python
treats `None` and `0` as falsy), else the word-count estimate. -/
def msgTokens (m : ContextMessage) : ℕ :=
  match m.tokenCount with
  | some t => if t = 0 then estTokens m.wordCount else t
  | none => estTokens m.wordCount

/-- Per-document tokens in `_calculate_document_tokens`. -/
def docTokens (d : ContextDocument) : ℕ := estTokens d.wordCount

/-- `_calculate_message_tokens`. -/
def sumMsgTokens (l : List ContextMessage) : ℕ := (l.map msgTokens).sum

/-- `_calculate_document_tokens`. -/
def sumDocTokens (l : List ContextDocument) : ℕ := (l.map docTokens).sum

/-- Embedding of `ContextPriority` (weights as exact rationals). -/
structure ContextPriorityM where
  recentMessagesWeight : ℚ
  retrievedContentWeight : ℚ
  systemMessagePriority : Bool
  preserveLastNMessages : ℕ
deriving DecidableEq, Repr

/-- The default `ContextPriority()`. -/
def defaultContextPriority : ContextPriorityM := ⟨7 / 10, 3 / 10, true, 2⟩

/-- `int(max_tokens * weight)`. -/
def tokenBudget (maxTokens : ℕ) (weight : ℚ) : ℕ :=
  (⌊(maxTokens : ℚ) * weight⌋).toNat

/-- The greedy walk shared by `_truncate_messages_to_budget` and the
history back-fill loop of `_prioritize_messages`: the input list is in
most-recent-first order; each message that still fits is prepended to the
(chronological) output and the walk stops at the first message that does
not fit. -/
def selectRecent : List ContextMessage → ℕ → List ContextMessage
  | [], _ => []
  | m :: rest, budget =>
    if msgTokens m ≤ budget then selectRecent rest (budget - msgTokens m) ++ [m]
    else []

/-- Embedding of `_prioritize_messages`: preserve the last
`preserve_last_n_messages` messages when they fit the budget (truncating
them to the most recent ones that fit otherwise), then back-fill older
history while it fits, stopping at the first overflow. -/
def prioritizeMessages (preserveN : ℕ) (messages : List ContextMessage)
    (tokenBudgetArg : ℕ) : List ContextMessage :=
  if messages.isEmpty then []
  else
    let preserveCount := min preserveN messages.length
    let preserved := messages.drop (messages.length - preserveCount)
    let preservedTokens := sumMsgTokens preserved
    if tokenBudgetArg < preservedTokens then
      selectRecent preserved.reverse tokenBudgetArg
    else
      let older := messages.take (messages.length - preserveCount)
      let additional := selectRecent older.reverse (tokenBudgetArg - preservedTokens)
      additional ++ preserved

/-- Embedding of `_truncate_document`: refuse under 50 tokens of budget,
keep the document whole when its words fit `int(token_budget / 1.3)`, else
keep the first `max_words` words with an ellipsis glued to the last one and
mark the metadata `truncated`. -/
def truncateDocument (d : ContextDocument) (tokenBudgetArg : ℕ) : Option ContextDocument :=
  if tokenBudgetArg < 50 then none
  else
    let maxWords := tokenBudgetArg * 10 / 13
    if d.wordCount ≤ maxWords then some d
    else some ⟨max 1 maxWords, d.similarityScore, true⟩

/-- The greedy document loop of `_prioritize_documents`: accept whole
documents that fit; at the first document that does not fit, accept a
truncated version when more than 50 tokens of budget remain, then stop. -/
def selectDocs (tokenBudgetArg : ℕ) : List ContextDocument → ℕ → List ContextDocument
  | [], _ => []
  | d :: rest, used =>
    if used + docTokens d ≤ tokenBudgetArg then
      d :: selectDocs tokenBudgetArg rest (used + docTokens d)
    else
      let remaining := tokenBudgetArg - used
      if 50 < remaining then
        match truncateDocument d remaining with
        | some td => [td]
        | none => []
      else []

/-- Embedding of `_prioritize_documents`: sort by similarity score
descending (Python `sorted(..., reverse=True)` is stable), then run the
greedy selection. -/
def prioritizeDocuments (documents : List ContextDocument) (tokenBudgetArg : ℕ) :
    List ContextDocument :=
  if documents.isEmpty then []
  else
    selectDocs tokenBudgetArg
      (documents.insertionSort (fun a b => b.similarityScore ≤ a.similarityScore)) 0

/-- Embedding of `ConversationContext` as the context service fills it
(retrieved documents kept as records rather than dicts). -/
structure ConversationContextM where
  sessionId : String
  messages : List ContextMessage
  retrievedContext : List ContextDocument
  totalTokens : ℕ
  contextWindowLimit : ℕ
deriving DecidableEq, Repr

/-- `chat_history[0].session_id if chat_history else "unknown"`. -/
def sessionIdOf (history : List ContextMessage) : String :=
  match history with
  | [] => "unknown"
  | m :: _ => m.sessionId

/-- Embedding of `_apply_token_management`. -/
def applyTokenManagement (priority : ContextPriorityM) (ctx : ConversationContextM)
    (retrievedDocuments : List ContextDocument) (maxTokens : ℕ) : ConversationContextM :=
  let messageTokenBudget := tokenBudget maxTokens priority.recentMessagesWeight
  let docTokenBudget := tokenBudget maxTokens priority.retrievedContentWeight
  let prioritizedMessages :=
    prioritizeMessages priority.preserveLastNMessages ctx.messages messageTokenBudget
  let prioritizedDocs := prioritizeDocuments retrievedDocuments docTokenBudget
  ⟨ctx.sessionId, prioritizedMessages, prioritizedDocs,
    sumMsgTokens prioritizedMessages + sumDocTokens prioritizedDocs, maxTokens⟩

/-- Embedding of `combine_context` (`max_tokens or self.default_max_tokens`
uses Python truthiness, so an explicit `0` also falls back to the
default). -/
def combineContext (priority : ContextPriorityM) (defaultMaxTokens : ℕ)
    (chatHistory : List ContextMessage) (retrievedDocuments : List ContextDocument)
    (maxTokensArg : Option ℕ) : ConversationContextM :=
  let maxTokens :=
    match maxTokensArg with
    | some t => if t = 0 then defaultMaxTokens else t
    | none => defaultMaxTokens
  let totalTokens := sumMsgTokens chatHistory + sumDocTokens retrievedDocuments
  let ctx : ConversationContextM :=
    ⟨sessionIdOf chatHistory, chatHistory, retrievedDocuments, totalTokens, maxTokens⟩
  if maxTokens < totalTokens then
    applyTokenManagement priority ctx retrievedDocuments maxTokens
  else ctx

/-! ### Budget lemmas for the context service -/

theorem sumMsgTokens_append (l1 l2 : List ContextMessage) :
    sumMsgTokens (l1 ++ l2) = sumMsgTokens l1 + sumMsgTokens l2 := by
  unfold sumMsgTokens
  rw [List.map_append, List.sum_append]

theorem selectRecent_le (rev : List ContextMessage) :
    ∀ budget, sumMsgTokens (selectRecent rev budget) ≤ budget := by
  induction rev with
  | nil =>
    intro budget
    simp [selectRecent, sumMsgTokens]
  | cons m rest ih =>
    intro budget
    rw [selectRecent]
    split
    · rename_i hfit
      rw [sumMsgTokens_append]
      have := ih (budget - msgTokens m)
      have hone : sumMsgTokens [m] = msgTokens m := by simp [sumMsgTokens]
      rw [hone]
      omega
    · simp [sumMsgTokens]

theorem prioritizeMessages_le (preserveN : ℕ) (messages : List ContextMessage)
    (budget : ℕ) : sumMsgTokens (prioritizeMessages preserveN messages budget) ≤ budget := by
  unfold prioritizeMessages
  split
  · simp [sumMsgTokens]
  · dsimp only
    split
    · exact selectRecent_le _ _
    · rename_i hnotlt
      rw [sumMsgTokens_append]
      have hadd := selectRecent_le
        (messages.take (messages.length - min preserveN messages.length)).reverse
        (budget - sumMsgTokens (messages.drop
          (messages.length - min preserveN messages.length)))
      omega

theorem truncateDocument_tokens_le (d : ContextDocument) (budget : ℕ)
    (td : ContextDocument) (h : truncateDocument d budget = some td) :
    docTokens td ≤ budget := by
  unfold truncateDocument at h
  split at h
  · exact absurd h (by simp)
  · rename_i hge
    have hmw : 13 * (budget * 10 / 13) / 10 ≤ budget := by
      have h1 : 13 * (budget * 10 / 13) ≤ budget * 10 := by
        have := Nat.div_mul_le_self (budget * 10) 13
        omega
      omega
    dsimp only at h
    split at h
    · rename_i hwc
      cases h
      unfold docTokens estTokens
      have : 13 * d.wordCount ≤ 13 * (budget * 10 / 13) := by omega
      omega
    · cases h
      unfold docTokens estTokens
      have hbig : 1 ≤ budget * 10 / 13 := by omega
      rw [max_eq_right hbig]
      exact hmw

theorem selectDocs_le (budget : ℕ) :
    ∀ (l : List ContextDocument) (used : ℕ), used ≤ budget →
      used + sumDocTokens (selectDocs budget l used) ≤ budget := by
  intro l
  induction l with
  | nil =>
    intro used hu
    simpa [selectDocs, sumDocTokens] using hu
  | cons d rest ih =>
    intro used hu
    rw [selectDocs]
    split
    · rename_i hfit
      have := ih (used + docTokens d) hfit
      simp only [sumDocTokens, List.map_cons, List.sum_cons] at this ⊢
      omega
    · dsimp only
      split
      · rename_i hroom
        split
        · rename_i td htd
          have := truncateDocument_tokens_le d (budget - used) td htd
          simp only [sumDocTokens, List.map_cons, List.map_nil, List.sum_cons,
            List.sum_nil]
          omega
        · simpa [sumDocTokens] using hu
      · simpa [sumDocTokens] using hu

theorem prioritizeDocuments_le (documents : List ContextDocument) (budget : ℕ) :
    sumDocTokens (prioritizeDocuments documents budget) ≤ budget := by
  unfold prioritizeDocuments
  split
  · simp [sumDocTokens]
  · simpa using selectDocs_le budget _ 0 (Nat.zero_le _)

theorem tokenBudget_split_le (maxTokens : ℕ) :
    tokenBudget maxTokens (7 / 10) + tokenBudget maxTokens (3 / 10) ≤ maxTokens := by
  unfold tokenBudget
  have h7 : (0 : ℤ) ≤ ⌊(maxTokens : ℚ) * (7 / 10)⌋ := by
    refine Int.floor_nonneg.2 ?_
    positivity
  have h3 : (0 : ℤ) ≤ ⌊(maxTokens : ℚ) * (3 / 10)⌋ := by
    refine Int.floor_nonneg.2 ?_
    positivity
  have hsum : ⌊(maxTokens : ℚ) * (7 / 10)⌋ + ⌊(maxTokens : ℚ) * (3 / 10)⌋
      ≤ (maxTokens : ℤ) := by
    have hle : ((⌊(maxTokens : ℚ) * (7 / 10)⌋ + ⌊(maxTokens : ℚ) * (3 / 10)⌋ : ℤ) : ℚ)
        ≤ (maxTokens : ℚ) := by
      push_cast
      have a7 := Int.floor_le ((maxTokens : ℚ) * (7 / 10))
      have a3 := Int.floor_le ((maxTokens : ℚ) * (3 / 10))
      have : (maxTokens : ℚ) * (7 / 10) + (maxTokens : ℚ) * (3 / 10) = (maxTokens : ℚ) := by
        ring
      linarith
    exact_mod_cast hle
  omega

/-! ## Claim C5 -/

/-- C5: when the combined token estimate of history and documents is at
most the target, `combine_context` returns the context unmodified; when it
exceeds the target, messages are kept within the `target * 0.7` budget,
documents within the `target * 0.3` budget, and the returned estimated
token total never exceeds the target at all (in particular it never
exceeds it by more than one item's token cost). -/
theorem combineContext_token_management (chatHistory : List ContextMessage)
    (retrievedDocuments : List ContextDocument) (maxTokens : ℕ) (hmt : maxTokens ≠ 0) :
    (sumMsgTokens chatHistory + sumDocTokens retrievedDocuments ≤ maxTokens →
      combineContext defaultContextPriority 4000 chatHistory retrievedDocuments
          (some maxTokens) =
        ⟨sessionIdOf chatHistory, chatHistory, retrievedDocuments,
          sumMsgTokens chatHistory + sumDocTokens retrievedDocuments, maxTokens⟩)
    ∧ (maxTokens < sumMsgTokens chatHistory + sumDocTokens retrievedDocuments →
      sumMsgTokens (combineContext defaultContextPriority 4000 chatHistory
          retrievedDocuments (some maxTokens)).messages ≤ tokenBudget maxTokens (7 / 10)
      ∧ sumDocTokens (combineContext defaultContextPriority 4000 chatHistory
          retrievedDocuments (some maxTokens)).retrievedContext ≤ tokenBudget maxTokens (3 / 10)
      ∧ (combineContext defaultContextPriority 4000 chatHistory retrievedDocuments
          (some maxTokens)).totalTokens ≤ maxTokens) := by
  constructor
  · intro hle
    unfold combineContext
    dsimp only
    rw [if_neg hmt]
    rw [if_neg (by omega :
      ¬ maxTokens < sumMsgTokens chatHistory + sumDocTokens retrievedDocuments)]
  · intro hgt
    have hrw : combineContext defaultContextPriority 4000 chatHistory retrievedDocuments
        (some maxTokens) =
        applyTokenManagement defaultContextPriority
          ⟨sessionIdOf chatHistory, chatHistory, retrievedDocuments,
            sumMsgTokens chatHistory + sumDocTokens retrievedDocuments, maxTokens⟩
          retrievedDocuments maxTokens := by
      unfold combineContext
      dsimp only
      rw [if_neg hmt]
      rw [if_pos hgt]
    rw [hrw]
    unfold applyTokenManagement
    refine ⟨prioritizeMessages_le _ _ _, prioritizeDocuments_le _ _, ?_⟩
    have hm := prioritizeMessages_le defaultContextPriority.preserveLastNMessages
      chatHistory (tokenBudget maxTokens defaultContextPriority.recentMessagesWeight)
    have hd := prioritizeDocuments_le retrievedDocuments
      (tokenBudget maxTokens defaultContextPriority.retrievedContentWeight)
    have hsplit := tokenBudget_split_le maxTokens
    show sumMsgTokens _ + sumDocTokens _ ≤ maxTokens
    calc sumMsgTokens _ + sumDocTokens _
        ≤ tokenBudget maxTokens defaultContextPriority.recentMessagesWeight
          + tokenBudget maxTokens defaultContextPriority.retrievedContentWeight :=
          Nat.add_le_add hm hd
      _ ≤ maxTokens := hsplit

/-- Witness for C5: a two-message, one-document context that fits a target
of 100 tokens is returned unmodified; the same context against a target of
10 tokens is reduced to within the 7 / 3 budgets and the target. -/
theorem combineContext_token_management_witness :
    ((100 : ℕ) ≠ 0
      ∧ sumMsgTokens [⟨"s", 10, none⟩, ⟨"s", 10, some 5⟩] + sumDocTokens [⟨20, 1, false⟩] ≤ 100
      ∧ combineContext defaultContextPriority 4000 [⟨"s", 10, none⟩, ⟨"s", 10, some 5⟩]
          [⟨20, 1, false⟩] (some 100) =
        ⟨"s", [⟨"s", 10, none⟩, ⟨"s", 10, some 5⟩], [⟨20, 1, false⟩], 44, 100⟩)
    ∧ ((10 : ℕ) ≠ 0
      ∧ 10 < sumMsgTokens [⟨"s", 10, none⟩, ⟨"s", 10, some 5⟩] + sumDocTokens [⟨20, 1, false⟩]
      ∧ sumMsgTokens (combineContext defaultContextPriority 4000
          [⟨"s", 10, none⟩, ⟨"s", 10, some 5⟩] [⟨20, 1, false⟩] (some 10)).messages
          ≤ tokenBudget 10 (7 / 10)
      ∧ (combineContext defaultContextPriority 4000 [⟨"s", 10, none⟩, ⟨"s", 10, some 5⟩]
          [⟨20, 1, false⟩] (some 10)).totalTokens ≤ 10) := by
  have h1 := (combineContext_token_management [⟨"s", 10, none⟩, ⟨"s", 10, some 5⟩]
    [⟨20, 1, false⟩] 100 (by decide)).1 (by decide)
  have h2 := (combineContext_token_management [⟨"s", 10, none⟩, ⟨"s", 10, some 5⟩]
    [⟨20, 1, false⟩] 10 (by decide)).2 (by decide)
  refine ⟨⟨by decide, by decide, ?_⟩, by decide, by decide, h2.1, h2.2.2⟩
  rw [h1]
  decide

/-! ## Session auto-naming (`app/services/rag_chat_service.py`) -/

/-- The `common_starts` filler list of `RAGChatService._generate_session_name`. -/
def commonStarts : List (List Char) :=
  ["how do i".data, "how can i".data, "how to".data, "what is".data, "what are".data,
   "can you".data, "could you".data, "please".data, "help me".data, "i need".data,
   "i want".data]

/-- The filler-stripping loop: at the first filler the lower-cased message
starts with, drop `len(start)` characters, strip, and stop. -/
def stripFiller (message : List Char) : List (List Char) → List Char
  | [] => message
  | s :: rest =>
    if s.isPrefixOf (pyLower message) then pyStrip (message.drop s.length)
    else stripFiller message rest

/-- `message.rstrip('?!.')`. -/
def rstripPunct (l : List Char) : List Char :=
  (l.reverse.dropWhile (fun c => c == '?' || c == '!' || c == '.')).reverse

/-- `message[0].upper() + message[1:]` guarded by `if message:`. -/
def capitalizeFirst : List Char → List Char
  | [] => []
  | c :: rest => c.toUpper :: rest

/-- The session name before the final length adjustments of
`_generate_session_name`: strip, remove one leading filler, strip trailing
`?!.`, capitalize the first letter. -/
def sessionNameCore (userMessage : List Char) : List Char :=
  capitalizeFirst (rstripPunct (stripFiller (pyStrip userMessage) commonStarts))

/-- Embedding of `RAGChatService._generate_session_name`: the core name,
truncated to its first 47 characters plus `"..."` when longer than 50, and
replaced by `"New Chat"` when shorter than 3 characters. -/
def generateSessionName (userMessage : List Char) : List Char :=
  let core := sessionNameCore userMessage
  let truncated := if 50 < core.length then core.take 47 ++ "...".data else core
  if truncated.length < 3 then "New Chat".data else truncated

/-! ## Claim C6 -/

/-- C6: `"How do I learn Python?"` names the session `"Learn Python"`,
`"Hello there!"` names it `"Hello there"`, any message whose stripped
remainder is shorter than 3 characters falls back to `"New Chat"`, and a
remainder longer than 50 characters is truncated to its first 47 characters
plus an ellipsis. -/
theorem generateSessionName_spec :
    generateSessionName "How do I learn Python?".data = "Learn Python".data
    ∧ generateSessionName "Hello there!".data = "Hello there".data
    ∧ (∀ msg, (sessionNameCore msg).length < 3 →
        generateSessionName msg = "New Chat".data)
    ∧ (∀ msg, 50 < (sessionNameCore msg).length →
        generateSessionName msg = (sessionNameCore msg).take 47 ++ "...".data) := by
  refine ⟨by decide, by decide, ?_, ?_⟩
  · intro msg h
    unfold generateSessionName
    dsimp only
    rw [if_neg (by omega : ¬ 50 < (sessionNameCore msg).length)]
    rw [if_pos h]
  · intro msg h
    unfold generateSessionName
    dsimp only
    rw [if_pos h]
    rw [if_neg]
    rw [List.length_append, List.length_take]
    have : ("...".data).length = 3 := by decide
    omega

/-- Witness for C6: a too-short remainder falls back to `"New Chat"`, and a
60-character remainder is truncated to 47 characters plus ellipsis. -/
theorem generateSessionName_spec_witness :
    ((sessionNameCore "hi".data).length < 3
      ∧ generateSessionName "hi".data = "New Chat".data)
    ∧ (50 < (sessionNameCore "aaaaaaaaaaaaaaaaaaaaaaaaaaaaaaaaaaaaaaaaaaaaaaaaaaaaaaaaaaaa".data).length
      ∧ generateSessionName "aaaaaaaaaaaaaaaaaaaaaaaaaaaaaaaaaaaaaaaaaaaaaaaaaaaaaaaaaaaa".data =
        (sessionNameCore "aaaaaaaaaaaaaaaaaaaaaaaaaaaaaaaaaaaaaaaaaaaaaaaaaaaaaaaaaaaa".data).take 47
          ++ "...".data) := by
  refine ⟨⟨by decide, ?_⟩, by decide, ?_⟩
  · exact generateSessionName_spec.2.2.1 _ (by decide)
  · exact generateSessionName_spec.2.2.2 _ (by decide)

/-! ## Conversational-RAG retrieval (`app/services/conversational_rag.py`) -/

/-- A `MessageEmbedding` row as read by `find_relevant_conversations`
(`role` is the string `role.value`). -/
structure MessageEmbeddingRow where
  sessionId : String
  content : String
  role : String
  embedding : List ℝ

/-- One `(content, role, similarity)` triple collected by the scan loop. -/
structure ScoredMessage where
  content : String
  role : String
  score : ℝ

/-- The scan loop of `find_relevant_conversations`: score each row with
`_cosine_similarity` and keep those strictly above the `0.7` threshold, in
row order. -/
noncomputable def collectSimilar (queryEmbedding : List ℝ) :
    List MessageEmbeddingRow → List ScoredMessage
  | [] => []
  | row :: rest =>
    if (7 : ℝ) / 10 < cosineSimilarityConv queryEmbedding row.embedding then
      ⟨row.content, row.role, cosineSimilarityConv queryEmbedding row.embedding⟩ ::
        collectSimilar queryEmbedding rest
    else collectSimilar queryEmbedding rest

/-- The kept rows after excluding the current session, scored and sorted by
similarity descending (`similarities.sort(key=..., reverse=True)` is a
stable descending sort). -/
noncomputable def relevantScored (queryEmbedding : List ℝ)
    (rows : List MessageEmbeddingRow) (currentSessionId : String) : List ScoredMessage :=
  (collectSimilar queryEmbedding
      (rows.filter (fun r => r.sessionId != currentSessionId))).insertionSort
    (fun a b => b.score ≤ a.score)

/-- Embedding of `ConversationalRAGService.find_relevant_conversations`
(the query embedding is the vector returned by the embedding service; the
default `limit` is 5 at the call sites). -/
noncomputable def findRelevantConversations (queryEmbedding : List ℝ)
    (rows : List MessageEmbeddingRow) (currentSessionId : String) (limit : ℕ) :
    List String :=
  ((relevantScored queryEmbedding rows currentSessionId).take limit).map
    (fun x => x.role ++ ": " ++ x.content)

theorem mem_collectSimilar (queryEmbedding : List ℝ) (rows : List MessageEmbeddingRow)
    (x : ScoredMessage) (hx : x ∈ collectSimilar queryEmbedding rows) :
    ∃ row, row ∈ rows
      ∧ (7 : ℝ) / 10 < cosineSimilarityConv queryEmbedding row.embedding
      ∧ x = ⟨row.content, row.role, cosineSimilarityConv queryEmbedding row.embedding⟩ := by
  induction rows with
  | nil => simp [collectSimilar] at hx
  | cons row rest ih =>
    rw [collectSimilar] at hx
    split at hx
    · rename_i hgt
      rcases List.mem_cons.1 hx with h | h
      · exact ⟨row, List.mem_cons_self _ _, hgt, h⟩
      · obtain ⟨r, hr, hcos, hform⟩ := ih h
        exact ⟨r, List.mem_cons_of_mem _ hr, hcos, hform⟩
    · obtain ⟨r, hr, hcos, hform⟩ := ih hx
      exact ⟨r, List.mem_cons_of_mem _ hr, hcos, hform⟩

/-! ## Claim C7 -/

/-- C7: `find_relevant_conversations` returns at most `limit` results;
every result comes from a stored row of a session different from the
current one whose unmapped cosine similarity with the query embedding is
strictly above `0.7`, rendered as `"<role>: <content>"`; the scored list is
sorted descending by similarity; and the cosine itself is `0` whenever
either vector has zero magnitude. -/
theorem findRelevantConversations_spec (queryEmbedding : List ℝ)
    (rows : List MessageEmbeddingRow) (currentSessionId : String) (limit : ℕ) :
    (findRelevantConversations queryEmbedding rows currentSessionId limit).length ≤ limit
    ∧ (∀ s, s ∈ findRelevantConversations queryEmbedding rows currentSessionId limit →
        ∃ row, row ∈ rows ∧ row.sessionId ≠ currentSessionId
          ∧ (7 : ℝ) / 10 < cosineSimilarityConv queryEmbedding row.embedding
          ∧ s = row.role ++ ": " ++ row.content)
    ∧ (relevantScored queryEmbedding rows currentSessionId).Sorted
        (fun a b => b.score ≤ a.score)
    ∧ (∀ v1 v2, listNorm v1 = 0 ∨ listNorm v2 = 0 → cosineSimilarityConv v1 v2 = 0) := by
  refine ⟨?_, ?_, ?_, ?_⟩
  · unfold findRelevantConversations
    rw [List.length_map]
    exact List.length_take_le _ _
  · intro s hs
    unfold findRelevantConversations at hs
    rcases List.mem_map.1 hs with ⟨x, hx, hform⟩
    have hx' : x ∈ relevantScored queryEmbedding rows currentSessionId :=
      List.take_subset _ _ hx
    unfold relevantScored at hx'
    rw [List.mem_insertionSort] at hx'
    obtain ⟨row, hrowmem, hcos, hxeq⟩ := mem_collectSimilar _ _ _ hx'
    rw [List.mem_filter] at hrowmem
    refine ⟨row, hrowmem.1, ?_, hcos, ?_⟩
    · simpa using hrowmem.2
    · rw [← hform, hxeq]
  · unfold relevantScored
    haveI : IsTotal ScoredMessage (fun a b => b.score ≤ a.score) :=
      ⟨fun a b => le_total b.score a.score⟩
    haveI : IsTrans ScoredMessage (fun a b => b.score ≤ a.score) :=
      ⟨fun _ _ _ hab hbc => le_trans hbc hab⟩
    exact List.sorted_insertionSort _ _
  · intro v1 v2 h
    simp [cosineSimilarityConv, h]

/-- Witness for C7 at a one-row store: the query `[1]` against a stored
`[1]` embedding in another session yields the rendered result, and the
zero-vector case of the cosine is exercised. -/
theorem findRelevantConversations_spec_witness :
    ("assistant: past" ∈ findRelevantConversations [(1 : ℝ)]
        [⟨"B", "past", "assistant", [(1 : ℝ)]⟩] "A" 5
      ∧ ∃ row, row ∈ [(⟨"B", "past", "assistant", [(1 : ℝ)]⟩ : MessageEmbeddingRow)]
          ∧ row.sessionId ≠ "A"
          ∧ (7 : ℝ) / 10 < cosineSimilarityConv [(1 : ℝ)] row.embedding
          ∧ "assistant: past" = row.role ++ ": " ++ row.content)
    ∧ (listNorm [(0 : ℝ)] = 0 ∨ listNorm [(1 : ℝ)] = 0)
    ∧ cosineSimilarityConv [(0 : ℝ)] [(1 : ℝ)] = 0 := by
  have hn1 : listNorm [(1 : ℝ)] = 1 := by simp [listNorm, listSumSq]
  have hcos : cosineSimilarityConv [(1 : ℝ)] [(1 : ℝ)] = 1 := by
    rw [cosineSimilarityConv, if_neg (by rw [hn1]; norm_num)]
    rw [hn1]
    simp [listDot]
  have hgt : (7 : ℝ) / 10 < cosineSimilarityConv [(1 : ℝ)] [(1 : ℝ)] := by
    rw [hcos]
    norm_num
  have hz : listNorm [(0 : ℝ)] = 0 := by simp [listNorm, listSumSq]
  have hfilter : ([(⟨"B", "past", "assistant", [(1 : ℝ)]⟩ : MessageEmbeddingRow)].filter
      (fun r => r.sessionId != "A")) = [⟨"B", "past", "assistant", [(1 : ℝ)]⟩] := rfl
  have hcollect : collectSimilar [(1 : ℝ)] [⟨"B", "past", "assistant", [(1 : ℝ)]⟩] =
      [⟨"past", "assistant", cosineSimilarityConv [(1 : ℝ)] [(1 : ℝ)]⟩] := by
    rw [collectSimilar, if_pos hgt, collectSimilar]
  have houtput : findRelevantConversations [(1 : ℝ)]
      [⟨"B", "past", "assistant", [(1 : ℝ)]⟩] "A" 5 = ["assistant: past"] := by
    unfold findRelevantConversations relevantScored
    rw [hfilter, hcollect]
    simp
  have hmem : "assistant: past" ∈ findRelevantConversations [(1 : ℝ)]
      [⟨"B", "past", "assistant", [(1 : ℝ)]⟩] "A" 5 := by
    rw [houtput]
    exact List.mem_singleton.2 rfl
  refine ⟨⟨hmem, ?_⟩, Or.inl hz, ?_⟩
  · exact (findRelevantConversations_spec [(1 : ℝ)]
      [⟨"B", "past", "assistant", [(1 : ℝ)]⟩] "A" 5).2.1 _ hmem
  · exact (findRelevantConversations_spec [(1 : ℝ)]
      [⟨"B", "past", "assistant", [(1 : ℝ)]⟩] "A" 5).2.2.2 _ _ (Or.inl hz)

/-! ## Vector repository similarity search (`app/repositories/vector_repository.py`)

`VectorRepository.search_similar` is embedded as a pure function over the
relevant instance state (`config.use_chromadb`, the sticky `_use_chromadb`
flag, and whether `_collection` is set) with the outcome of the ChromaDB
query and the relational results supplied as parameters.  Alongside the
`VectorSearchResponse` it returns which backend actually served the query
and the updated instance state. -/

/-- The instance state `search_similar` consults. -/
structure VectorRepoFlags where
  configUseChromadb : Bool
  useChromadb : Bool
  hasCollection : Bool
deriving DecidableEq, Repr

/-- Which storage backend produced the results of a search. -/
inductive Backend where
  | chromadb
  | mysqlFallback
deriving DecidableEq, Repr

/-- Outcome of `_search_chromadb` (results, or a raised exception). -/
inductive ChromaSearchOutcome where
  | ok (results : List SimilarityResultM)
  | failure (msg : String)

/-- Embedding of `VectorRepository.search_similar`: try ChromaDB while the
sticky flag and collection allow it, returning `used_fallback=False`; on a
ChromaDB exception clear the sticky flag, set the local `used_fallback`,
and serve from MySQL; when ChromaDB is skipped, serve from MySQL with
`used_fallback = used_fallback or not config.use_chromadb`. -/
def searchSimilar (st : VectorRepoFlags) (chromaOutcome : ChromaSearchOutcome)
    (mysqlResults : List SimilarityResultM) (queryText : String) (searchTimeMs : ℤ) :
    VectorSearchResponseM × Backend × VectorRepoFlags :=
  if st.useChromadb ∧ st.hasCollection then
    match chromaOutcome with
    | .ok results =>
      (⟨queryText, results, results.length, searchTimeMs, false⟩, .chromadb, st)
    | .failure _ =>
      (⟨queryText, mysqlResults, mysqlResults.length, searchTimeMs,
          true || !st.configUseChromadb⟩, .mysqlFallback,
        ⟨st.configUseChromadb, false, st.hasCollection⟩)
  else
    (⟨queryText, mysqlResults, mysqlResults.length, searchTimeMs,
        false || !st.configUseChromadb⟩, .mysqlFallback, st)

/-! ## Claim C8 -/

/-- C8 (code bug exhibit): with `config.use_chromadb = True` but the sticky
`_use_chromadb` flag already cleared by an earlier failure, every search is
served by the relational fallback while the returned `used_fallback` flag
is `False` — the flag does not report that the fallback served the
query. -/
theorem usedFallback_flag_wrong_after_sticky_disable
    (chromaOutcome : ChromaSearchOutcome) (mysqlResults : List SimilarityResultM)
    (queryText : String) (searchTimeMs : ℤ) :
    (searchSimilar ⟨true, false, true⟩ chromaOutcome mysqlResults
        queryText searchTimeMs).2.1 = .mysqlFallback
    ∧ (searchSimilar ⟨true, false, true⟩ chromaOutcome mysqlResults
        queryText searchTimeMs).1.usedFallback = false := by
  constructor <;> rfl

/-! ## RAG chat message processing (`app/services/rag_chat_service.py`)

`RAGChatService.process_chat_message` is embedded with the outcome of each
collaborator call supplied as a parameter.  `store_message_embedding` and
`find_relevant_conversations` catch their own exceptions (returning
`False` / `[]`), `_generate_response` catches its own exceptions
(returning a fixed trouble message), and `_update_session_name_if_first_message`
swallows all errors; only persisting the user message, loading the
history, and persisting the assistant turn can raise into the outer
handler, which persists and returns the fixed apology message. -/

/-- A persisted message as returned to the route (content only). -/
structure RagChatMessage where
  content : String
deriving DecidableEq, Repr

/-- The fixed apology persisted by the outer exception handler. -/
def apologyMsg : String :=
  "I apologize, but I encountered an error processing your message. Please try again."

/-- The fixed message `_generate_response` returns when the provider call
raises. -/
def generateTroubleMsg : String :=
  "I apologize, but I\x27m having trouble generating a response right now. Please try again."

/-- Outcomes of the collaborator calls made during one
`process_chat_message` turn. -/
structure ChatStepOutcomes where
  persistUserMessage : Except String RagChatMessage
  storeUserEmbeddingOk : Bool
  loadHistory : Except String (List RagChatMessage)
  findRelevant : Except String (List String)
  generate : Except String String
  persistReply : Except String Unit
  storeReplyEmbeddingOk : Bool
  persistRecovery : Except String Unit

/-- The body of the `try` block of `process_chat_message`: the steps that
can raise are the user-message persist, the history load and the
assistant-message persist; embedding storage and the cross-session lookup
are internally caught, and a generation failure is replaced by the fixed
trouble message, which is persisted and returned as the assistant turn. -/
def ragHappyPath (o : ChatStepOutcomes) : Except String RagChatMessage :=
  match o.persistUserMessage with
  | .error e => .error e
  | .ok _userMsg =>
    match o.loadHistory with
    | .error e => .error e
    | .ok _history =>
      let _relevant :=
        match o.findRelevant with
        | .ok l => l
        | .error _ => []
      let reply :=
        match o.generate with
        | .ok r => r
        | .error _ => generateTroubleMsg
      match o.persistReply with
      | .error e => .error e
      | .ok _ => .ok ⟨reply⟩

/-- Embedding of `RAGChatService.process_chat_message`: run the happy path;
on any exception, persist and return the fixed apology (which itself raises
to the HTTP caller only if that recovery persist fails). -/
def processChatMessage (o : ChatStepOutcomes) : Except String RagChatMessage :=
  match ragHappyPath o with
  | .ok m => .ok m
  | .error _ =>
    match o.persistRecovery with
    | .ok _ => .ok ⟨apologyMsg⟩
    | .error e => .error e

/-! ## Claim C9 -/

/-- C9 counterexample: when storing the user-message embedding fails but
everything else succeeds, `process_chat_message` returns the normally
generated reply, not the apology — so a failure of the embedding-storage
step does not produce the apology the claim requires. -/
theorem processChatMessage_embedding_failure_not_apology :
    processChatMessage ⟨.ok ⟨"What is X?"⟩, false, .ok [], .ok [], .ok "X is Y.",
        .ok (), true, .ok ()⟩ = .ok ⟨"X is Y."⟩
    ∧ "X is Y." ≠ apologyMsg := by
  constructor
  · rfl
  · decide

/-- C9 amended: the flow raises into the outer handler exactly when
persisting the user message, loading the history, or persisting the reply
fails, and then persists and returns the fixed apology (failing the HTTP
request only if that recovery persist itself fails); embedding-storage and
cross-session-lookup failures are swallowed and the generated reply is
returned; a generation failure is caught internally and a fixed trouble
message is persisted and returned. -/
theorem processChatMessage_amended (o : ChatStepOutcomes) :
    ((∃ e, ragHappyPath o = .error e) ↔
      ((∃ e, o.persistUserMessage = .error e) ∨ (∃ e, o.loadHistory = .error e)
        ∨ (∃ e, o.persistReply = .error e)))
    ∧ (∀ e, ragHappyPath o = .error e →
        (o.persistRecovery = .ok () → processChatMessage o = .ok ⟨apologyMsg⟩)
        ∧ (∀ e2, o.persistRecovery = .error e2 → processChatMessage o = .error e2))
    ∧ (∀ u h, o.persistUserMessage = .ok u → o.loadHistory = .ok h →
        o.persistReply = .ok () →
        (∀ r, o.generate = .ok r → processChatMessage o = .ok ⟨r⟩)
        ∧ (∀ e, o.generate = .error e → processChatMessage o = .ok ⟨generateTroubleMsg⟩)) := by
  obtain ⟨pu, se, lh, fr, g, pr, sre, prec⟩ := o
  refine ⟨?_, ?_, ?_⟩
  · cases pu with
    | error e => simp [ragHappyPath]
    | ok u =>
      cases lh with
      | error e => simp [ragHappyPath]
      | ok h =>
        cases pr with
        | error e => simp [ragHappyPath]
        | ok pru => simp [ragHappyPath]
  · intro e he
    constructor
    · intro hrec
      dsimp only at hrec
      subst hrec
      simp [processChatMessage, he]
    · intro e2 hrec
      dsimp only at hrec
      subst hrec
      simp [processChatMessage, he]
  · intro u h hu hh hp
    cases hu
    cases hh
    cases hp
    constructor
    · intro r hr
      dsimp only at hr
      subst hr
      simp [processChatMessage, ragHappyPath]
    · intro e he
      dsimp only at he
      subst he
      simp [processChatMessage, ragHappyPath]

/-- Witness for C9 amended: a failing history load yields the persisted
apology, and a fully successful turn yields the generated reply. -/
theorem processChatMessage_amended_witness :
    (ragHappyPath ⟨.ok ⟨"u"⟩, true, .error "db down", .ok [], .ok "r", .ok (), true, .ok ()⟩
        = .error "db down"
      ∧ processChatMessage ⟨.ok ⟨"u"⟩, true, .error "db down", .ok [], .ok "r", .ok (), true, .ok ()⟩
        = .ok ⟨apologyMsg⟩)
    ∧ processChatMessage ⟨.ok ⟨"u"⟩, true, .ok [], .ok [], .ok "r", .ok (), true, .ok ()⟩
        = .ok ⟨"r"⟩ := by
  refine ⟨⟨rfl, ?_⟩, ?_⟩
  · exact ((processChatMessage_amended
      ⟨.ok ⟨"u"⟩, true, .error "db down", .ok [], .ok "r", .ok (), true, .ok ()⟩).2.1
        "db down" rfl).1 rfl
  · exact ((processChatMessage_amended
      ⟨.ok ⟨"u"⟩, true, .ok [], .ok [], .ok "r", .ok (), true, .ok ()⟩).2.2
        ⟨"u"⟩ [] rfl rfl rfl).1 "r" rfl

/-! ## Vector repository document CRUD (`app/repositories/vector_repository.py`)

Storage model for `get_document` / `update_document`: both backends map a
document id to a stored record.  The source keeps the system fields
`created_at`, `token_count` (and, for MySQL, `embedding_dimension`) inside
the stored metadata dict and strips them on read; they are modelled here as
the separate record fields `createdAt` / `tokenCount` (the embedding
dimension is the length of `embedding`), so the stored `userMeta` is
exactly the caller-visible metadata `get_document` returns. -/

/-- A document record as stored in either backend. -/
structure StoredDoc where
  content : String
  embedding : List ℚ
  userMeta : List (String × String)
  createdAt : ℕ
  tokenCount : ℕ
deriving DecidableEq, Repr

/-- The contents of both backends. -/
structure VectorStoresState where
  chroma : List (String × StoredDoc)
  mysql : List (String × StoredDoc)
deriving DecidableEq, Repr

/-- The instance flags `get_document` / `update_document` consult
(`self._use_chromadb and self._collection`). -/
structure RepoMode where
  useChromadb : Bool
  hasCollection : Bool
deriving DecidableEq, Repr

/-- Id lookup in one backend. -/
def lookupStore (store : List (String × StoredDoc)) (docId : String) : Option StoredDoc :=
  (store.find? (fun p => p.1 == docId)).map (fun p => p.2)

/-- Render a stored record as the `DocumentResponse` `get_document` builds
(system fields stripped from the metadata, no `updated_at`). -/
def storedToResponse (docId : String) (d : StoredDoc) : DocumentResponseM :=
  ⟨docId, d.content, d.userMeta, d.createdAt, none⟩

/-- Embedding of `VectorRepository.get_document`: try ChromaDB when the
flags allow it, falling through to MySQL when the id is absent there (or
when ChromaDB is disabled). -/
def getDocument (mode : RepoMode) (st : VectorStoresState) (docId : String) :
    Option DocumentResponseM :=
  if mode.useChromadb ∧ mode.hasCollection then
    match lookupStore st.chroma docId with
    | some d => some (storedToResponse docId d)
    | none => (lookupStore st.mysql docId).map (storedToResponse docId)
  else (lookupStore st.mysql docId).map (storedToResponse docId)

/-- Embedding of the `DocumentUpdate` model (content validation aside, both
fields are optional). -/
structure DocumentUpdateM where
  content : Option String
  metadata : Option (List (String × String))
deriving DecidableEq, Repr

/-- ChromaDB delete-then-re-add of one id. -/
def chromaReplace (store : List (String × StoredDoc)) (docId : String) (d : StoredDoc) :
    List (String × StoredDoc) :=
  (store.filter (fun p => p.1 != docId)) ++ [(docId, d)]

/-- MySQL in-place row update of one id. -/
def mysqlReplace (store : List (String × StoredDoc)) (docId : String) (d : StoredDoc) :
    List (String × StoredDoc) :=
  store.map (fun p => if p.1 == docId then (docId, d) else p)

/-- Embedding of `VectorRepository.update_document`.  `embedFn` is the
embedding service (vector and token count for a content string), `now` the
wall clock, `chromaOk` whether the ChromaDB write succeeds (on failure the
source falls through to MySQL).  With new content the document is
re-embedded and written to the active backend; with a metadata-only update
the source returns a response carrying the replacement metadata and a fresh
`updated_at` but performs no write to either backend. -/
def updateDocument (mode : RepoMode) (embedFn : String → List ℚ × ℕ) (now : ℕ)
    (st : VectorStoresState) (docId : String) (upd : DocumentUpdateM) (chromaOk : Bool) :
    Option DocumentResponseM × VectorStoresState :=
  match getDocument mode st docId with
  | none => (none, st)
  | some existing =>
    let newMetadata :=
      match upd.metadata with
      | some m => m
      | none => existing.metadata
    match upd.content with
    | some newContent =>
      let emb := embedFn newContent
      if mode.useChromadb ∧ mode.hasCollection ∧ chromaOk then
        (some ⟨docId, newContent, newMetadata, existing.createdAt, some now⟩,
          ⟨chromaReplace st.chroma docId
              ⟨newContent, emb.1, newMetadata, existing.createdAt, emb.2⟩, st.mysql⟩)
      else
        match lookupStore st.mysql docId with
        | some _ =>
          (some ⟨docId, newContent, newMetadata, existing.createdAt, some now⟩,
            ⟨st.chroma, mysqlReplace st.mysql docId
                ⟨newContent, emb.1, newMetadata, existing.createdAt, emb.2⟩⟩)
        | none => (none, st)
    | none =>
      (some ⟨docId, existing.content, newMetadata, existing.createdAt, some now⟩, st)

/-! ## Claim C10 -/

/-- C10 counterexample: a metadata-only `update_document` replaces the
metadata wholesale instead of merging — updating a document stored with
metadata `{"a": "1"}` using `{"b": "2"}` returns metadata `{"b": "2"}`,
dropping the existing key, so the response does not carry merged
metadata. -/
theorem updateDocument_metadata_not_merged :
    ((getDocument ⟨false, false⟩
        ⟨[], [("d1", ⟨"hello", [], [("a", "1")], 0, 2⟩)]⟩ "d1").map
      (fun r => r.metadata)) = some [("a", "1")]
    ∧ ((updateDocument ⟨false, false⟩ (fun _ => ([], 0)) 5
        ⟨[], [("d1", ⟨"hello", [], [("a", "1")], 0, 2⟩)]⟩ "d1"
        ⟨none, some [("b", "2")]⟩ true).1.map (fun r => r.metadata)) = some [("b", "2")]
    ∧ ¬ (("a", "1") ∈ [("b", "2")] : Prop) := by
  refine ⟨rfl, rfl, by decide⟩

/-- C10 amended: a metadata-only `update_document` (no new content) returns
a `DocumentResponse` carrying the supplied metadata verbatim (a wholesale
replacement, not a merge) with the existing content and a fresh
`updated_at`, writes nothing to either backend, and a subsequent
`get_document` therefore still returns the original stored metadata. -/
theorem updateDocument_metadata_only_frame (mode : RepoMode)
    (embedFn : String → List ℚ × ℕ) (now : ℕ) (st : VectorStoresState)
    (docId : String) (m : List (String × String)) (chromaOk : Bool) :
    (updateDocument mode embedFn now st docId ⟨none, some m⟩ chromaOk).2 = st
    ∧ (∀ resp, (updateDocument mode embedFn now st docId ⟨none, some m⟩ chromaOk).1 =
        some resp →
      ∃ existing, getDocument mode st docId = some existing
        ∧ resp = ⟨docId, existing.content, m, existing.createdAt, some now⟩)
    ∧ getDocument mode
        ((updateDocument mode embedFn now st docId ⟨none, some m⟩ chromaOk).2) docId =
      getDocument mode st docId
    ∧ (getDocument mode st docId = none →
      (updateDocument mode embedFn now st docId ⟨none, some m⟩ chromaOk).1 = none) := by
  rcases hget : getDocument mode st docId with _ | existing
  · refine ⟨?_, ?_, ?_, ?_⟩
    · simp [updateDocument, hget]
    · intro resp hresp
      rw [updateDocument] at hresp
      rw [hget] at hresp
      exact absurd hresp (by simp)
    · simp [updateDocument, hget]
    · intro _
      simp [updateDocument, hget]
  · refine ⟨?_, ?_, ?_, ?_⟩
    · simp [updateDocument, hget]
    · intro resp hresp
      rw [updateDocument] at hresp
      rw [hget] at hresp
      simp only [Option.some.injEq] at hresp
      exact ⟨existing, rfl, hresp.symm⟩
    · simp [updateDocument, hget]
    · intro h
      exact Option.noConfusion h

/-- Witness for C10: a concrete metadata-only update leaves both backends
untouched and returns the replacement metadata with a fresh timestamp. -/
theorem updateDocument_metadata_only_frame_witness :
    ((updateDocument ⟨false, false⟩ (fun _ => ([], 0)) 5
        ⟨[], [("d1", ⟨"hello", [], [("a", "1")], 0, 2⟩)]⟩ "d1"
        ⟨none, some [("b", "2")]⟩ true).1 =
      some ⟨"d1", "hello", [("b", "2")], 0, some 5⟩)
    ∧ (∃ existing, getDocument ⟨false, false⟩
          ⟨[], [("d1", ⟨"hello", [], [("a", "1")], 0, 2⟩)]⟩ "d1" = some existing
        ∧ (⟨"d1", "hello", [("b", "2")], 0, some 5⟩ : DocumentResponseM) =
          ⟨"d1", existing.content, [("b", "2")], existing.createdAt, some 5⟩)
    ∧ (updateDocument ⟨false, false⟩ (fun _ => ([], 0)) 5
        ⟨[], [("d1", ⟨"hello", [], [("a", "1")], 0, 2⟩)]⟩ "d1"
        ⟨none, some [("b", "2")]⟩ true).2 =
      ⟨[], [("d1", ⟨"hello", [], [("a", "1")], 0, 2⟩)]⟩ := by
  refine ⟨rfl, ?_, ?_⟩
  · exact (updateDocument_metadata_only_frame ⟨false, false⟩ (fun _ => ([], 0)) 5
      ⟨[], [("d1", ⟨"hello", [], [("a", "1")], 0, 2⟩)]⟩ "d1" [("b", "2")] true).2.1
      ⟨"d1", "hello", [("b", "2")], 0, some 5⟩ rfl
  · exact (updateDocument_metadata_only_frame ⟨false, false⟩ (fun _ => ([], 0)) 5
      ⟨[], [("d1", ⟨"hello", [], [("a", "1")], 0, 2⟩)]⟩ "d1" [("b", "2")] true).1

end OpenaiOrchestration
